import Mathlib

/-!
Verification development for the LucidTalk core SDK orchestrator
(`LucidTalk` class): configuration merge and validation, lazy backend
initialization, session lifecycle, event forwarding, and the mock
transcription timer.  The JavaScript class is shallowly embedded as a
pure state machine: asynchronous backend calls become explicit
environment parameters describing their outcomes, `Date.now()` and the
random id suffix become explicit arguments, and emitted events are
collected in lists.
-/

namespace LucidTalk

/-- A caller-supplied configuration object.  `none` on a field means the
key is absent from the object, so the object spread in the constructor
keeps the default.  A supplied falsy string value (a JavaScript empty
string, `null`, or `undefined`) is represented as `some ""`, since the
constructor treats all of them alike via JavaScript truthiness. -/
structure ConfigInput where
  privacy : Option String := none
  p2p : Option Bool := none
  ai : Option String := none
  apiKeys : Option (List (String × String)) := none
  storagePath : Option String := none
  backendPath : Option (Option String) := none
  deriving DecidableEq

/-- The merged configuration stored on the instance (`this.config`). -/
structure Config where
  privacy : String
  p2p : Bool
  ai : String
  apiKeys : List (String × String)
  storagePath : String
  backendPath : Option String
  deriving DecidableEq

/-- The defaults-then-spread merge that builds `this.config` in the
constructor: each default (privacy `local-only`, p2p false, ai `local`,
empty apiKeys, storagePath `./sessions`, backendPath null) is
overridden by the caller-supplied field when that key is present. -/
def mergeConfig (input : ConfigInput) : Config :=
  { privacy := input.privacy.getD ("local-only")
    p2p := input.p2p.getD false
    ai := input.ai.getD ("local")
    apiKeys := input.apiKeys.getD []
    storagePath := input.storagePath.getD ("./sessions")
    backendPath := input.backendPath.getD none }

/-- The default configuration, i.e. the merge of an empty object. -/
def defaultConfig : Config := mergeConfig {}

/-- Session record created at the start of transcription. -/
structure Session where
  id : String
  startTime : Nat
  participants : List String
  status : String
  endTime : Option Nat := none
  driveKey : Option String := none
  discoveryKey : Option String := none
  deriving DecidableEq

/-- Events emitted by the mock generator or forwarded from the backend.
`confidence` is the numeric literal from the source, represented
exactly as a rational. -/
structure TranscriptionEvent where
  text : String
  timestamp : Nat
  confidence : Rat
  isFinal : Bool
  speaker : Option String
  deriving DecidableEq

/-- State of the `setInterval` timer installed by
`startMockTranscription`: whether the interval is still scheduled and
the closure-captured `counter`. -/
structure MockTimer where
  running : Bool
  counter : Nat
  deriving DecidableEq

/-- Errors thrown by the class (`throw new Error(...)`) or rethrown from
delegated backend calls. -/
inductive SdkError where
  | privacyRequired
  | alreadyActive
  | aiNotConfigured
  | p2pNotEnabled
  | noSessionToShare
  | backendError (msg : String)
  deriving DecidableEq

/-- The message string attached to each thrown error in the source. -/
def SdkError.message : SdkError → String
  | .privacyRequired => "Privacy mode is required"
  | .alreadyActive => "Transcription already in progress"
  | .aiNotConfigured => "AI provider not configured"
  | .p2pNotEnabled => "P2P not enabled"
  | .noSessionToShare => "No session to share"
  | .backendError msg => msg

/-- Signals emitted on the orchestrator itself (`this.emit(...)`). -/
inductive SdkEvent where
  | initializedEv
  | sessionStarted (s : Session)
  | sessionStopped (s : Session)
  | transcriptionEv (e : TranscriptionEvent)
  | summaryGenerated (s : String)
  deriving DecidableEq

/-- Instance state: the merged config, the `isTranscribing` flag,
`currentSession`, the four backend manager handles of `this.managers`
(each `true` when the handle has been assigned, `false` when it is still
`null`), the `managers.initialized` guard, the number of `transcription`
forwarding listeners registered on the backend transcription manager,
and the mock timer if one was ever started. -/
structure OrchState where
  config : Config
  isTranscribing : Bool
  currentSession : Option Session
  hyperdrive : Bool
  sessionMgr : Bool
  transcription : Bool
  ai : Bool
  initialized : Bool
  backendTransListeners : Nat
  mockTimer : Option MockTimer
  deriving DecidableEq

/-- The field assignments in the constructor before `validateConfig`. -/
def initialState (cfg : Config) : OrchState :=
  { config := cfg
    isTranscribing := false
    currentSession := none
    hyperdrive := false
    sessionMgr := false
    transcription := false
    ai := false
    initialized := false
    backendTransListeners := 0
    mockTimer := none }

/-- `new LucidTalk(config)`: merge the defaults with the supplied object,
then run `validateConfig`, which throws `Privacy mode is required`
exactly when the merged `privacy` is falsy (the empty string models all
falsy values).  The non-fatal API-key warning changes no state. -/
def mkLucidTalk (input : ConfigInput) : Except SdkError OrchState :=
  let cfg := mergeConfig input
  if cfg.privacy = "" then Except.error SdkError.privacyRequired
  else Except.ok (initialState cfg)

/-- Abstraction of the `path.join` of the module directory with the
parent segment, the default backend path resolved during
initialization. -/
def parentDir : String := ".."

/-- JavaScript truthiness of an optional string value. -/
def jsTruthyOpt : Option String → Bool
  | none => false
  | some s => s != ""

/-- The backend-path defaulting step: when `config.backendPath` is
falsy it is set to the parent of the module directory. -/
def resolveBackendPath (c : Config) : Config :=
  if jsTruthyOpt c.backendPath then c else { c with backendPath := some parentDir }

/-- Outcome of the single try block that loads both P2P modules,
constructs `this.managers.hyperdrive`, constructs
`this.managers.session`, and awaits `hyperdrive.initialize()`.  The
constructor marks where the throw happens, which determines which
assignments have already executed. -/
inductive P2pOutcome where
  | requireFail
  | hyperCtorFail
  | sessionCtorFail
  | initFail
  | ok
  deriving DecidableEq

/-- Outcome of the AI try block: `require`, `new AIProviderManager()`,
then `this.managers.ai.configure(...)` after the assignment. -/
inductive AiOutcome where
  | requireFail
  | ctorFail
  | configureFail
  | ok
  deriving DecidableEq

/-- Environment describing how each delegated step of `initialize()`
behaves. `transcriptionOk` is whether `require` plus
`new TranscriptionManager()` succeeds. -/
structure InitEnv where
  p2p : P2pOutcome
  transcriptionOk : Bool
  ai : AiOutcome
  deriving DecidableEq

/-- The guard that `config.ai` is truthy and differs from `local`. -/
def aiConfigured (c : Config) : Bool :=
  c.ai != "" && c.ai != "local"

/-- `initialize()`: returns immediately when the `managers.initialized`
guard is set; otherwise resolves the backend path, runs the three
try/catch blocks (each catch only logs a warning), sets the guard, and
emits `initialized`.  A handle becomes `true` exactly when the source
executes the corresponding assignment before the block throws. -/
def initializeSdk (st0 : OrchState) (env : InitEnv) : OrchState × List SdkEvent :=
  if st0.initialized then (st0, [])
  else
    let st1 := { st0 with config := resolveBackendPath st0.config }
    let st2 :=
      if st1.config.p2p then
        match env.p2p with
        | .requireFail => st1
        | .hyperCtorFail => st1
        | .sessionCtorFail => { st1 with hyperdrive := true }
        | .initFail => { st1 with hyperdrive := true, sessionMgr := true }
        | .ok => { st1 with hyperdrive := true, sessionMgr := true }
      else st1
    let st3 := if env.transcriptionOk then { st2 with transcription := true } else st2
    let st4 :=
      if aiConfigured st3.config then
        match env.ai with
        | .requireFail => st3
        | .ctorFail => st3
        | .configureFail => { st3 with ai := true }
        | .ok => { st3 with ai := true }
      else st3
    ({ st4 with initialized := true }, [SdkEvent.initializedEv])

/-- Whether the p2p try block has already executed the assignment to
`this.managers.hyperdrive` when it throws (or completes). -/
def P2pOutcome.hyperAssigned : P2pOutcome → Bool
  | .requireFail => false
  | .hyperCtorFail => false
  | .sessionCtorFail => true
  | .initFail => true
  | .ok => true

/-- Whether the p2p try block has already executed the assignment to
`this.managers.session` when it throws (or completes). -/
def P2pOutcome.sessionAssigned : P2pOutcome → Bool
  | .requireFail => false
  | .hyperCtorFail => false
  | .sessionCtorFail => false
  | .initFail => true
  | .ok => true

/-- Whether the AI try block has already executed the assignment to
`this.managers.ai` when it throws (or completes). -/
def AiOutcome.assigned : AiOutcome → Bool
  | .requireFail => false
  | .ctorFail => false
  | .configureFail => true
  | .ok => true

/-- `` `session_${Date.now()}_${random-suffix}` ``. -/
def generateSessionId (now : Nat) (rand : String) : String :=
  "session_" ++ toString now ++ "_" ++ rand

/-- The session object literal assigned to `this.currentSession` at the
top of `startTranscription`. -/
def freshSession (now : Nat) (rand : String) : Session :=
  { id := generateSessionId now rand
    startTime := now
    participants := []
    status := "active" }

/-- Environment for one `startTranscription` call: the result of
`createSessionDrive` (`some (driveKey, discoveryKey)` on success,
`none` when it throws, which is only logged), and the delegated
`managers.transcription.startTranscription` call (`none` = resolves,
`some msg` = rejects with an error carrying `msg`, which is rethrown). -/
structure StartEnv where
  driveResult : Option (String × String)
  backendStart : Option String
  deriving DecidableEq

/-- The P2P branch of `startTranscription`: when P2P is enabled and a
session manager handle exists, attempt `createSessionDrive`; on success
record the keys on the current session; on failure only log. -/
def applyDriveCreation (st : OrchState) (sess : Session) (senv : StartEnv) :
    OrchState × Session :=
  if st.config.p2p && st.sessionMgr then
    match senv.driveResult with
    | some kp =>
        let s2 := { sess with driveKey := some kp.1, discoveryKey := some kp.2 }
        ({ st with currentSession := some s2 }, s2)
    | none => (st, sess)
  else (st, sess)

/-- The five canned phrases of `startMockTranscription`, in source
order. -/
def mockPhrases : List String :=
  ["Hello everyone, welcome to the meeting",
   "Let\x27s start with the agenda for today",
   "First item is about the project timeline",
   "We need to discuss the upcoming deadline",
   "Any questions or concerns?"]

/-- The event built on a mock tick with the captured `counter` value. -/
def mkMockEvent (counter : Nat) (now : Nat) : TranscriptionEvent :=
  { text := mockPhrases.getD (counter % mockPhrases.length) ("")
    timestamp := now
    confidence := (95 : Rat) / 100
    isFinal := true
    speaker := some ("Speaker 1") }

/-- One firing of the interval callback: a cancelled interval never
fires again; otherwise the callback first checks `this.isTranscribing`
and calls `clearInterval` when it is false, else emits the next mock
event and increments `counter`. -/
def mockTick (transcribing : Bool) (now : Nat) (t : MockTimer) :
    MockTimer × Option TranscriptionEvent :=
  if t.running then
    if transcribing then
      ({ t with counter := t.counter + 1 }, some (mkMockEvent t.counter now))
    else
      ({ t with running := false }, none)
  else (t, none)

/-- A sequence of interval firings at the given times, with the
`isTranscribing` flag held fixed across the run; collects the emitted
events. -/
def mockRun (transcribing : Bool) : MockTimer → List Nat → MockTimer × List TranscriptionEvent
  | t, [] => (t, [])
  | t, now :: rest =>
      let r1 := mockTick transcribing now t
      let r2 := mockRun transcribing r1.1 rest
      (r2.1, match r1.2 with
             | some e => e :: r2.2
             | none => r2.2)

/-- `startTranscription(options)`: throw `AlreadyActive` when already
transcribing; otherwise ensure initialization, replace
`currentSession` with a fresh active record, attempt P2P drive
creation, then either delegate to the transcription backend (on
success registering one more forwarding listener and setting the
active flag; on failure rethrowing) or enter mock mode (set the active
flag and install a fresh timer); finally emit `session:started` and
return the session. -/
def startTranscription (st0 : OrchState) (ienv : InitEnv) (senv : StartEnv)
    (now : Nat) (rand : String) :
    OrchState × List SdkEvent × Except SdkError Session :=
  if st0.isTranscribing then (st0, [], Except.error SdkError.alreadyActive)
  else
    let ini := initializeSdk st0 ienv
    let sess := freshSession now rand
    let st2 := { ini.1 with currentSession := some sess }
    let dr := applyDriveCreation st2 sess senv
    if dr.1.transcription then
      match senv.backendStart with
      | none =>
          let st4 := { dr.1 with
            backendTransListeners := dr.1.backendTransListeners + 1
            isTranscribing := true }
          (st4, ini.2 ++ [SdkEvent.sessionStarted dr.2], Except.ok dr.2)
      | some msg =>
          (dr.1, ini.2, Except.error (SdkError.backendError msg))
    else
      let st4 := { dr.1 with
        isTranscribing := true
        mockTimer := some { running := true, counter := 0 } }
      (st4, ini.2 ++ [SdkEvent.sessionStarted dr.2], Except.ok dr.2)

/-- `stopTranscription()`: no-op when not transcribing; otherwise await
the backend stop (its success is assumed here), clear the active flag,
and when a current session exists set its end time and status and emit
`session:stopped`. -/
def stopTranscription (st : OrchState) (now : Nat) : OrchState × List SdkEvent :=
  if st.isTranscribing then
    let st1 := { st with isTranscribing := false }
    match st1.currentSession with
    | some s =>
        let s2 := { s with endTime := some now, status := "ended" }
        ({ st1 with currentSession := some s2 }, [SdkEvent.sessionStopped s2])
    | none => (st1, [])
  else (st, [])

/-- `dispose()`: stop transcription when active, then
`this.removeAllListeners()` — which removes the listeners registered
on the orchestrator itself and touches neither the backend manager handles nor the
forwarding listeners registered on the backend transcription
manager. -/
def dispose (st : OrchState) (now : Nat) : OrchState × List SdkEvent :=
  if st.isTranscribing then stopTranscription st now else (st, [])

/-- `getCurrentSession()`. -/
def getCurrentSession (st : OrchState) : Option Session :=
  st.currentSession

/-- `isActive()`. -/
def isActive (st : OrchState) : Bool :=
  st.isTranscribing

/-- Delegated calls a `summarize` invocation performs, with their
arguments. -/
inductive BackendCall where
  | getTranscript
  | generateSummary (transcript : String) (prompt : String)
  deriving DecidableEq

/-- The fixed prompt lookup of `getPromptTemplate`; an unknown name
falls back to the `meeting-notes` prompt, and `custom` uses the
caller-supplied prompt (`none` models a falsy `options.customPrompt`)
with a generic fallback. -/
def getPromptTemplate (template : String) (customPrompt : Option String) : String :=
  if template = "meeting-notes" then
    "Generate comprehensive meeting notes with key points and decisions."
  else if template = "action-items" then
    "Extract action items and assignments from the meeting."
  else if template = "study-notes" then
    "Create study notes with key concepts and definitions."
  else if template = "interview" then
    "Summarize interview with key insights and responses."
  else if template = "custom" then
    customPrompt.getD ("Summarize the following transcript.")
  else
    "Generate comprehensive meeting notes with key points and decisions."

/-- `getTranscriptText()`: delegate when a transcription handle exists,
else return the fixed placeholder. -/
def getTranscriptText (st : OrchState) (backendTranscript : String) : String :=
  if st.transcription then backendTranscript else "Mock transcript text for testing"

/-- Environment for `summarize`: the transcript the backend would
return, and the result of `generateSummary`. -/
structure SummarizeEnv where
  transcript : String
  aiResult : Except String String

/-- `summarize(options)`: throw `AIProviderNotConfigured` when no AI
handle exists (before any delegation); otherwise resolve the template
(`none` models a falsy `options.template`), fetch the transcript,
delegate generation, and on success emit `summary:generated` and
return the summary; a delegation failure is logged and rethrown. -/
def summarize (st : OrchState) (env : SummarizeEnv)
    (template : Option String) (customPrompt : Option String) :
    OrchState × List SdkEvent × List BackendCall × Except SdkError String :=
  if st.ai then
    let tmpl := template.getD ("meeting-notes")
    let transcriptText := getTranscriptText st env.transcript
    let prompt := getPromptTemplate tmpl customPrompt
    let calls :=
      (if st.transcription then [BackendCall.getTranscript] else []) ++
      [BackendCall.generateSummary transcriptText prompt]
    match env.aiResult with
    | Except.ok s => (st, [SdkEvent.summaryGenerated s], calls, Except.ok s)
    | Except.error msg => (st, [], calls, Except.error (SdkError.backendError msg))
  else (st, [], [], Except.error SdkError.aiNotConfigured)

/-- The forwarding listener registered in `startTranscription` maps a
raw backend event to the emitted `TranscriptionEvent` shape. -/
def forwardListener (e : TranscriptionEvent) : TranscriptionEvent :=
  { text := e.text
    timestamp := e.timestamp
    confidence := e.confidence
    isFinal := e.isFinal
    speaker := e.speaker }

/-- A raw `transcription` event from the backend manager is delivered
to every registered forwarding listener; each re-emits once on the
orchestrator, so the event is re-emitted once per registered
listener. -/
def emitRaw (st : OrchState) (e : TranscriptionEvent) : List SdkEvent :=
  List.replicate st.backendTransListeners (SdkEvent.transcriptionEv (forwardListener e))

/-- One successful start followed by a stop, used to iterate session
lifecycles. -/
def startStop (st : OrchState) (ienv : InitEnv) (senv : StartEnv)
    (now : Nat) (rand : String) : OrchState :=
  (stopTranscription (startTranscription st ienv senv now rand).1 now).1

/-- `n` consecutive start/stop rounds. -/
def startStopN : Nat → OrchState → InitEnv → StartEnv → Nat → String → OrchState
  | 0, st, _, _, _, _ => st
  | n + 1, st, ienv, senv, now, rand =>
      startStopN n (startStop st ienv senv now rand) ienv senv now rand

/-- Example state used by concrete witnesses: a freshly constructed
default instance after an `initialize()` in which no backend manager
became available (pure mock mode). -/
def exMockReady : OrchState :=
  { initialState defaultConfig with initialized := true }

/-- Example state used by concrete witnesses: a freshly constructed
default instance after an `initialize()` in which the transcription
manager became available. -/
def exBackendReady : OrchState :=
  { initialState defaultConfig with initialized := true, transcription := true }

/-- Example state used by concrete witnesses: a freshly constructed
instance with P2P enabled, before `initialize()`. -/
def exP2pFresh : OrchState :=
  initialState (mergeConfig { p2p := some true })

/-- Example initialization environment used by concrete witnesses: the
drive manager and the session manager construct, but the awaited
`hyperdrive.initialize()` call rejects; the transcription manager
loads; the AI block is not reached (local provider). -/
def exInitFailEnv : InitEnv :=
  { p2p := P2pOutcome.initFail, transcriptionOk := true, ai := AiOutcome.ok }

/-- Example initialization environment used by concrete witnesses:
every delegated initialization step succeeds. -/
def exInitOkEnv : InitEnv :=
  { p2p := P2pOutcome.ok, transcriptionOk := true, ai := AiOutcome.ok }

/-- Example start environment used by concrete witnesses: the delegated
backend start resolves, no drive is created. -/
def exStartOk : StartEnv :=
  { driveResult := none, backendStart := none }

/-- Example start environment used by concrete witnesses: the delegated
backend start rejects. -/
def exStartFail : StartEnv :=
  { driveResult := none, backendStart := some ("backend start failed") }

/-! ## Helper lemmas -/

lemma resolveBackendPath_p2p (c : Config) :
    (resolveBackendPath c).p2p = c.p2p := by
  unfold resolveBackendPath
  split <;> rfl

lemma resolveBackendPath_ai (c : Config) :
    (resolveBackendPath c).ai = c.ai := by
  unfold resolveBackendPath
  split <;> rfl

lemma aiConfigured_resolveBackendPath (c : Config) :
    aiConfigured (resolveBackendPath c) = aiConfigured c := by
  unfold aiConfigured
  rw [resolveBackendPath_ai]

lemma initializeSdk_done (st : OrchState) (env : InitEnv)
    (h : st.initialized = true) :
    initializeSdk st env = (st, []) := by
  unfold initializeSdk
  simp [h]

lemma applyDrive_fst_transcription (st : OrchState) (sess : Session) (senv : StartEnv) :
    (applyDriveCreation st sess senv).1.transcription = st.transcription := by
  unfold applyDriveCreation
  rcases hdr : senv.driveResult with _ | kp <;>
    cases hb : (st.config.p2p && st.sessionMgr) <;> simp [hdr, hb]

lemma applyDrive_fst_isTranscribing (st : OrchState) (sess : Session) (senv : StartEnv) :
    (applyDriveCreation st sess senv).1.isTranscribing = st.isTranscribing := by
  unfold applyDriveCreation
  rcases hdr : senv.driveResult with _ | kp <;>
    cases hb : (st.config.p2p && st.sessionMgr) <;> simp [hdr, hb]

lemma applyDrive_fst_initialized (st : OrchState) (sess : Session) (senv : StartEnv) :
    (applyDriveCreation st sess senv).1.initialized = st.initialized := by
  unfold applyDriveCreation
  rcases hdr : senv.driveResult with _ | kp <;>
    cases hb : (st.config.p2p && st.sessionMgr) <;> simp [hdr, hb]

lemma applyDrive_fst_listeners (st : OrchState) (sess : Session) (senv : StartEnv) :
    (applyDriveCreation st sess senv).1.backendTransListeners =
      st.backendTransListeners := by
  unfold applyDriveCreation
  rcases hdr : senv.driveResult with _ | kp <;>
    cases hb : (st.config.p2p && st.sessionMgr) <;> simp [hdr, hb]

lemma applyDrive_snd_id (st : OrchState) (sess : Session) (senv : StartEnv) :
    (applyDriveCreation st sess senv).2.id = sess.id := by
  unfold applyDriveCreation
  rcases hdr : senv.driveResult with _ | kp <;>
    cases hb : (st.config.p2p && st.sessionMgr) <;> simp [hdr, hb]

lemma applyDrive_snd_startTime (st : OrchState) (sess : Session) (senv : StartEnv) :
    (applyDriveCreation st sess senv).2.startTime = sess.startTime := by
  unfold applyDriveCreation
  rcases hdr : senv.driveResult with _ | kp <;>
    cases hb : (st.config.p2p && st.sessionMgr) <;> simp [hdr, hb]

lemma applyDrive_snd_status (st : OrchState) (sess : Session) (senv : StartEnv) :
    (applyDriveCreation st sess senv).2.status = sess.status := by
  unfold applyDriveCreation
  rcases hdr : senv.driveResult with _ | kp <;>
    cases hb : (st.config.p2p && st.sessionMgr) <;> simp [hdr, hb]

lemma applyDrive_snd_endTime (st : OrchState) (sess : Session) (senv : StartEnv) :
    (applyDriveCreation st sess senv).2.endTime = sess.endTime := by
  unfold applyDriveCreation
  rcases hdr : senv.driveResult with _ | kp <;>
    cases hb : (st.config.p2p && st.sessionMgr) <;> simp [hdr, hb]

lemma applyDrive_currentSession (st : OrchState) (sess : Session) (senv : StartEnv)
    (h : st.currentSession = some sess) :
    (applyDriveCreation st sess senv).1.currentSession =
      some (applyDriveCreation st sess senv).2 := by
  unfold applyDriveCreation
  rcases hdr : senv.driveResult with _ | kp <;>
    cases hb : (st.config.p2p && st.sessionMgr) <;> simp [hdr, hb, h]

lemma stop_listeners (st : OrchState) (now : Nat) :
    (stopTranscription st now).1.backendTransListeners = st.backendTransListeners := by
  unfold stopTranscription
  cases h : st.isTranscribing with
  | false => simp [h]
  | true => cases hcs : st.currentSession <;> simp [h, hcs]

lemma stop_initialized (st : OrchState) (now : Nat) :
    (stopTranscription st now).1.initialized = st.initialized := by
  unfold stopTranscription
  cases h : st.isTranscribing with
  | false => simp [h]
  | true => cases hcs : st.currentSession <;> simp [h, hcs]

lemma stop_transcription (st : OrchState) (now : Nat) :
    (stopTranscription st now).1.transcription = st.transcription := by
  unfold stopTranscription
  cases h : st.isTranscribing with
  | false => simp [h]
  | true => cases hcs : st.currentSession <;> simp [h, hcs]

lemma mockTick_not_transcribing (t : MockTimer) (now : Nat) :
    (mockTick false now t).2 = none ∧ (mockTick false now t).1.running = false := by
  unfold mockTick
  cases h : t.running <;> simp [h]

lemma mockRun_not_transcribing (t : MockTimer) (times : List Nat) :
    (mockRun false t times).2 = [] := by
  induction times generalizing t with
  | nil => rfl
  | cons now rest ih =>
      have h := mockTick_not_transcribing t now
      simp only [mockRun, h.1, ih]

lemma stop_not_active (st : OrchState) (now : Nat) :
    (stopTranscription st now).1.isTranscribing = false := by
  unfold stopTranscription
  cases h : st.isTranscribing with
  | false => simp [h]
  | true =>
      cases hcs : st.currentSession <;> simp [h, hcs]

lemma dispose_not_active (st : OrchState) (now : Nat) :
    (dispose st now).1.isTranscribing = false := by
  unfold dispose
  cases h : st.isTranscribing with
  | false => simp [h]
  | true => simpa [h] using stop_not_active st now

/-! ## Claims -/

/-- C1 counterexample: the empty configuration object contains no
`privacy` field, yet construction succeeds (the defaults-then-spread
merge fills in `privacy = local-only` before `validateConfig` runs),
contradicting the claim that every configuration without `privacy`
fails with a configuration error. -/
theorem c1_counterexample :
    (({} : ConfigInput).privacy = none) ∧
    mkLucidTalk {} = Except.ok (initialState defaultConfig) := by
  exact ⟨rfl, rfl⟩

/-- C1 amended: construction fails with the `Privacy mode is required`
configuration error exactly when the caller-supplied object contains an
explicitly falsy `privacy` field (modelled as the empty string); when
the field is simply absent, the default `local-only` applies and
construction succeeds. -/
theorem c1_privacy_validation_amended (input : ConfigInput) :
    mkLucidTalk input = Except.error SdkError.privacyRequired ↔
      input.privacy = some ("") := by
  unfold mkLucidTalk mergeConfig
  rcases h : input.privacy with _ | s
  · simp
  · rcases eq_or_ne s ("") with rfl | hs
    · simp
    · simp [hs]

/-- C3: `startTranscription` while a transcription is already active
fails with `AlreadyActive` (message `Transcription already in
progress`), emits nothing, and returns the state completely unchanged
— in particular the stored session record and the active flag are
untouched. -/
theorem c3_already_active (st : OrchState) (ienv : InitEnv) (senv : StartEnv)
    (now : Nat) (rand : String) (h : st.isTranscribing = true) :
    startTranscription st ienv senv now rand =
      (st, [], Except.error SdkError.alreadyActive) := by
  unfold startTranscription
  simp [h]

theorem c3_witness :
    startTranscription { initialState defaultConfig with isTranscribing := true }
      { p2p := P2pOutcome.ok, transcriptionOk := true, ai := AiOutcome.ok }
      { driveResult := none, backendStart := none } 5 ("r1") =
    ({ initialState defaultConfig with isTranscribing := true }, [],
      Except.error SdkError.alreadyActive) :=
  c3_already_active _ _ _ 5 ("r1") rfl

/-- C5: after `stopTranscription` or `dispose` resolves the active flag
is down, and a mock timer with the flag down never emits another event:
every tick yields no event and leaves the interval cancelled, so a
whole run of ticks emits nothing. -/
theorem c5_mock_timer_stops :
    (∀ (t : MockTimer) (now : Nat),
        (mockTick false now t).2 = none ∧ (mockTick false now t).1.running = false) ∧
    (∀ (t : MockTimer) (times : List Nat), (mockRun false t times).2 = []) ∧
    (∀ (st : OrchState) (now : Nat), isActive (stopTranscription st now).1 = false) ∧
    (∀ (st : OrchState) (now : Nat), isActive (dispose st now).1 = false) := by
  refine ⟨mockTick_not_transcribing, mockRun_not_transcribing, ?_, ?_⟩
  · intro st now
    exact stop_not_active st now
  · intro st now
    exact dispose_not_active st now

/-- C7: `summarize` with no AI handle fails with
`AIProviderNotConfigured`, emits no signal (in particular no
`summary:generated`), performs no delegated backend call, and leaves
the state unchanged. -/
theorem c7_summarize_requires_ai (st : OrchState) (env : SummarizeEnv)
    (template customPrompt : Option String) (h : st.ai = false) :
    summarize st env template customPrompt =
      (st, [], [], Except.error SdkError.aiNotConfigured) := by
  unfold summarize
  simp [h]

theorem c7_witness :
    summarize (initialState defaultConfig)
      { transcript := "a transcript", aiResult := Except.ok ("a summary") } none none =
    (initialState defaultConfig, [], [], Except.error SdkError.aiNotConfigured) :=
  c7_summarize_requires_ai _ _ none none rfl

/-- C8: constructing with an empty configuration object succeeds and
yields exactly the defaults privacy `local-only`, p2p false,
ai `local`, empty apiKeys, storagePath `./sessions`,
`backendPath=null`; and for every input each merged field is the
caller-supplied value when the key is present, the default
otherwise. -/
theorem c8_defaults :
    mkLucidTalk {} = Except.ok (initialState defaultConfig) ∧
    defaultConfig =
      { privacy := "local-only", p2p := false, ai := "local",
        apiKeys := [], storagePath := "./sessions", backendPath := none } ∧
    ∀ input : ConfigInput,
      (mergeConfig input).privacy = input.privacy.getD ("local-only") ∧
      (mergeConfig input).p2p = input.p2p.getD false ∧
      (mergeConfig input).ai = input.ai.getD ("local") ∧
      (mergeConfig input).apiKeys = input.apiKeys.getD [] ∧
      (mergeConfig input).storagePath = input.storagePath.getD ("./sessions") ∧
      (mergeConfig input).backendPath = input.backendPath.getD none :=
  ⟨rfl, rfl, fun _ => ⟨rfl, rfl, rfl, rfl, rfl, rfl⟩⟩

/-- C2 counterexample: with P2P enabled, when the drive manager and the
session manager both construct but the awaited
`hyperdrive.initialize()` rejects, the failure to initialize the drive
manager is caught — yet its handle (and the session manager handle)
is left present, not absent, because the assignments preceded the
throw.  This contradicts the claim that a failure to construct or
initialize a manager leaves the handle of that manager absent. -/
theorem c2_counterexample :
    (initializeSdk exP2pFresh exInitFailEnv).1.hyperdrive = true ∧
    (initializeSdk exP2pFresh exInitFailEnv).1.sessionMgr = true :=
  ⟨rfl, rfl⟩

/-- C2 amended: during `initialize()` every delegated failure is caught
and never prevents the construction attempts of the remaining managers
(the presence of each handle depends only on the configuration and on
the outcome of its own block), and initialization always completes,
sets the guard, and emits `initialized`.  However, a handle is left
absent only when the failure occurs before the handle assignment
(module load or constructor); a failure in a later step of the same
try block (`hyperdrive.initialize()`, `ai.configure()`, or the session
manager constructor after the drive manager assignment) leaves the
already-assigned handle(s) present. -/
theorem c2_initialization_amended (st : OrchState) (env : InitEnv)
    (h0 : st.initialized = false)
    (hh : st.hyperdrive = false) (hs : st.sessionMgr = false)
    (ht : st.transcription = false) (ha : st.ai = false) :
    (initializeSdk st env).2 = [SdkEvent.initializedEv] ∧
    (initializeSdk st env).1.initialized = true ∧
    (initializeSdk st env).1.transcription = env.transcriptionOk ∧
    (initializeSdk st env).1.hyperdrive = (st.config.p2p && env.p2p.hyperAssigned) ∧
    (initializeSdk st env).1.sessionMgr = (st.config.p2p && env.p2p.sessionAssigned) ∧
    (initializeSdk st env).1.ai = (aiConfigured st.config && env.ai.assigned) := by
  unfold initializeSdk
  simp only [h0, Bool.false_eq_true, if_false]
  cases hp : st.config.p2p <;> cases hep : env.p2p <;>
    cases htk : env.transcriptionOk <;>
    cases hac : aiConfigured st.config <;> cases hea : env.ai <;>
    simp [hh, hs, ht, ha, hp, htk, hac, resolveBackendPath_p2p,
      aiConfigured_resolveBackendPath, P2pOutcome.hyperAssigned,
      P2pOutcome.sessionAssigned, AiOutcome.assigned]

theorem c2_amended_witness :
    (exP2pFresh.initialized = false ∧ exP2pFresh.hyperdrive = false) ∧
    (initializeSdk exP2pFresh exInitFailEnv).2 = [SdkEvent.initializedEv] ∧
    (initializeSdk exP2pFresh exInitFailEnv).1.initialized = true ∧
    (initializeSdk exP2pFresh exInitFailEnv).1.transcription =
      exInitFailEnv.transcriptionOk ∧
    (initializeSdk exP2pFresh exInitFailEnv).1.hyperdrive =
      (exP2pFresh.config.p2p && exInitFailEnv.p2p.hyperAssigned) ∧
    (initializeSdk exP2pFresh exInitFailEnv).1.sessionMgr =
      (exP2pFresh.config.p2p && exInitFailEnv.p2p.sessionAssigned) ∧
    (initializeSdk exP2pFresh exInitFailEnv).1.ai =
      (aiConfigured exP2pFresh.config && exInitFailEnv.ai.assigned) :=
  ⟨⟨rfl, rfl⟩,
   c2_initialization_amended exP2pFresh exInitFailEnv rfl rfl rfl rfl rfl⟩

lemma mockTick_active (c : Nat) (now : Nat) :
    mockTick true now { running := true, counter := c } =
      ({ running := true, counter := c + 1 }, some (mkMockEvent c now)) := rfl

lemma mockRun_active_length (times : List Nat) :
    ∀ c : Nat,
      ((mockRun true { running := true, counter := c } times).2).length =
        times.length := by
  induction times with
  | nil => intro c; rfl
  | cons now rest ih =>
      intro c
      simp [mockRun, mockTick_active, ih (c + 1)]

lemma mockRun_active_get (times : List Nat) :
    ∀ c k : Nat, k < times.length →
      ((mockRun true { running := true, counter := c } times).2)[k]? =
        some (mkMockEvent (c + k) (times.getD k 0)) := by
  induction times with
  | nil =>
      intro c k h
      simp at h
  | cons now rest ih =>
      intro c k h
      cases k with
      | zero => simp [mockRun, mockTick_active]
      | succ k =>
          have h2 : k < rest.length := by
            simpa using Nat.lt_of_succ_lt_succ h
          have harg : c + 1 + k = c + (k + 1) := by omega
          simp [mockRun, mockTick_active, ih (c + 1) k h2, harg]

lemma start_backend_fail_eq (st : OrchState) (ienv : InitEnv) (senv : StartEnv)
    (now : Nat) (rand : String) (msg : String)
    (h1 : st.isTranscribing = false) (h2 : st.initialized = true)
    (h3 : st.transcription = true) (h4 : senv.backendStart = some msg) :
    startTranscription st ienv senv now rand =
      ((applyDriveCreation { st with currentSession := some (freshSession now rand) }
          (freshSession now rand) senv).1,
        [], Except.error (SdkError.backendError msg)) := by
  have hd := initializeSdk_done st ienv h2
  unfold startTranscription
  simp [h1, hd, applyDrive_fst_transcription, h3, h4]

lemma start_backend_ok_eq (st : OrchState) (ienv : InitEnv) (senv : StartEnv)
    (now : Nat) (rand : String)
    (h1 : st.isTranscribing = false) (h2 : st.initialized = true)
    (h3 : st.transcription = true) (h4 : senv.backendStart = none) :
    startTranscription st ienv senv now rand =
      ({ (applyDriveCreation { st with currentSession := some (freshSession now rand) }
            (freshSession now rand) senv).1 with
          backendTransListeners :=
            (applyDriveCreation { st with currentSession := some (freshSession now rand) }
              (freshSession now rand) senv).1.backendTransListeners + 1
          isTranscribing := true },
        [SdkEvent.sessionStarted
          (applyDriveCreation { st with currentSession := some (freshSession now rand) }
            (freshSession now rand) senv).2],
        Except.ok
          (applyDriveCreation { st with currentSession := some (freshSession now rand) }
            (freshSession now rand) senv).2) := by
  have hd := initializeSdk_done st ienv h2
  unfold startTranscription
  simp [h1, hd, applyDrive_fst_transcription, h3, h4]

lemma startStop_spec (st : OrchState) (ienv : InitEnv) (senv : StartEnv)
    (now : Nat) (rand : String)
    (h1 : st.isTranscribing = false) (h2 : st.initialized = true)
    (h3 : st.transcription = true) (h4 : senv.backendStart = none) :
    (startStop st ienv senv now rand).isTranscribing = false ∧
    (startStop st ienv senv now rand).initialized = true ∧
    (startStop st ienv senv now rand).transcription = true ∧
    (startStop st ienv senv now rand).backendTransListeners =
      st.backendTransListeners + 1 := by
  unfold startStop
  rw [start_backend_ok_eq st ienv senv now rand h1 h2 h3 h4]
  refine ⟨stop_not_active _ now, ?_, ?_, ?_⟩
  · simp [stop_initialized, applyDrive_fst_initialized, h2]
  · simp [stop_transcription, applyDrive_fst_transcription, h3]
  · simp [stop_listeners, applyDrive_fst_listeners]

lemma startStopN_spec (n : Nat) (ienv : InitEnv) (senv : StartEnv)
    (now : Nat) (rand : String) (h4 : senv.backendStart = none) :
    ∀ st : OrchState, st.isTranscribing = false → st.initialized = true →
      st.transcription = true →
      (startStopN n st ienv senv now rand).isTranscribing = false ∧
      (startStopN n st ienv senv now rand).initialized = true ∧
      (startStopN n st ienv senv now rand).transcription = true ∧
      (startStopN n st ienv senv now rand).backendTransListeners =
        st.backendTransListeners + n := by
  induction n with
  | zero =>
      intro st a b c
      exact ⟨a, b, c, rfl⟩
  | succ n ih =>
      intro st a b c
      have hss := startStop_spec st ienv senv now rand a b c h4
      have hrec := ih (startStop st ienv senv now rand) hss.1 hss.2.1 hss.2.2.1
      refine ⟨hrec.1, hrec.2.1, hrec.2.2.1, ?_⟩
      rw [show startStopN (n + 1) st ienv senv now rand =
            startStopN n (startStop st ienv senv now rand) ienv senv now rand from rfl,
          hrec.2.2.2, hss.2.2.2]
      omega

/-- C4: with no transcription handle available, `startTranscription`
enters mock mode — the active flag goes up and a fresh timer with
counter 0 is installed — and on a run of ticks while the flag stays up
the timer emits exactly one event per tick, whose k-th event carries
the (k mod 5)-th canned phrase, confidence 0.95, `isFinal = true`, and
speaker `Speaker 1`. -/
theorem c4_mock_schedule (st : OrchState) (ienv : InitEnv) (senv : StartEnv)
    (now : Nat) (rand : String)
    (h1 : st.isTranscribing = false) (h2 : st.initialized = true)
    (h3 : st.transcription = false) :
    (startTranscription st ienv senv now rand).1.mockTimer =
      some { running := true, counter := 0 } ∧
    isActive (startTranscription st ienv senv now rand).1 = true ∧
    ∀ times : List Nat,
      ((mockRun true { running := true, counter := 0 } times).2).length =
        times.length ∧
      ∀ k, k < times.length →
        ∃ e, ((mockRun true { running := true, counter := 0 } times).2)[k]? = some e ∧
          e.text = mockPhrases.getD (k % 5) ("") ∧
          e.confidence = (95 : Rat) / 100 ∧
          e.isFinal = true ∧
          e.speaker = some ("Speaker 1") := by
  have hd := initializeSdk_done st ienv h2
  refine ⟨?_, ?_, ?_⟩
  · unfold startTranscription
    simp [h1, hd, applyDrive_fst_transcription, h3, isActive]
  · unfold startTranscription
    simp [h1, hd, applyDrive_fst_transcription, h3, isActive]
  · intro times
    refine ⟨mockRun_active_length times 0, ?_⟩
    intro k hk
    have hlen : mockPhrases.length = 5 := rfl
    refine ⟨mkMockEvent k (times.getD k 0), ?_, ?_, rfl, rfl, rfl⟩
    · simpa using mockRun_active_get times 0 k hk
    · simp [mkMockEvent, hlen]

theorem c4_witness :
    (startTranscription exMockReady exInitOkEnv exStartOk 100 ("r2")).1.mockTimer =
      some { running := true, counter := 0 } ∧
    ∃ e, ((mockRun true { running := true, counter := 0 }
            [3000, 6000, 9000, 12000, 15000, 18000]).2)[5]? = some e ∧
      e.text = mockPhrases.getD (5 % 5) ("") ∧
      e.confidence = (95 : Rat) / 100 ∧
      e.isFinal = true ∧
      e.speaker = some ("Speaker 1") := by
  have h := c4_mock_schedule exMockReady exInitOkEnv exStartOk 100 ("r2") rfl rfl rfl
  exact ⟨h.1, (h.2.2 [3000, 6000, 9000, 12000, 15000, 18000]).2 5 (by decide)⟩

/-- C6: when the delegated backend `startTranscription` call fails, the
error propagates to the caller, the active flag stays down (the
session is not marked active), and no signal — in particular no
`session:started` — is emitted by the call. -/
theorem c6_backend_start_failure (st : OrchState) (ienv : InitEnv) (senv : StartEnv)
    (now : Nat) (rand : String) (msg : String)
    (h1 : st.isTranscribing = false) (h2 : st.initialized = true)
    (h3 : st.transcription = true) (h4 : senv.backendStart = some msg) :
    (startTranscription st ienv senv now rand).2.2 =
      Except.error (SdkError.backendError msg) ∧
    isActive (startTranscription st ienv senv now rand).1 = false ∧
    (startTranscription st ienv senv now rand).2.1 = [] := by
  rw [start_backend_fail_eq st ienv senv now rand msg h1 h2 h3 h4]
  refine ⟨rfl, ?_, rfl⟩
  simp [isActive, applyDrive_fst_isTranscribing, h1]

theorem c6_witness :
    (startTranscription exBackendReady exInitOkEnv exStartFail 200 ("r3")).2.2 =
      Except.error (SdkError.backendError ("backend start failed")) ∧
    isActive (startTranscription exBackendReady exInitOkEnv exStartFail 200 ("r3")).1 =
      false ∧
    (startTranscription exBackendReady exInitOkEnv exStartFail 200 ("r3")).2.1 = [] :=
  c6_backend_start_failure exBackendReady exInitOkEnv exStartFail 200 ("r3")
    ("backend start failed") rfl rfl rfl rfl

/-- C9: `startTranscription` replaces `currentSession` before the
backend delegation, so even when the delegated start fails and the
error propagates, `getCurrentSession` afterwards returns the freshly
created record — status `active`, no end time, the newly generated
id — and not a previously stored (ended) session record. -/
theorem c9_session_replaced (st : OrchState) (ienv : InitEnv) (senv : StartEnv)
    (now : Nat) (rand : String) (msg : String)
    (h1 : st.isTranscribing = false) (h2 : st.initialized = true)
    (h3 : st.transcription = true) (h4 : senv.backendStart = some msg) :
    (∃ s, getCurrentSession (startTranscription st ienv senv now rand).1 = some s ∧
      s.id = generateSessionId now rand ∧ s.startTime = now ∧
      s.status = "active" ∧ s.endTime = none) ∧
    ∀ prev, prev.status = "ended" →
      getCurrentSession (startTranscription st ienv senv now rand).1 ≠ some prev := by
  rw [start_backend_fail_eq st ienv senv now rand msg h1 h2 h3 h4]
  have hcs := applyDrive_currentSession
    { st with currentSession := some (freshSession now rand) }
    (freshSession now rand) senv (by rfl)
  constructor
  · refine ⟨(applyDriveCreation
      { st with currentSession := some (freshSession now rand) }
      (freshSession now rand) senv).2, ?_, ?_, ?_, ?_, ?_⟩
    · simpa [getCurrentSession] using hcs
    · simp [applyDrive_snd_id, freshSession]
    · simp [applyDrive_snd_startTime, freshSession]
    · simp [applyDrive_snd_status, freshSession]
    · simp [applyDrive_snd_endTime, freshSession]
  · intro prev hprev hcontra
    have heq : (applyDriveCreation
        { st with currentSession := some (freshSession now rand) }
        (freshSession now rand) senv).2 = prev := by
      rw [getCurrentSession, hcs] at hcontra
      exact Option.some_injective _ hcontra
    have hact : prev.status = "active" := by
      rw [← heq]
      simp [applyDrive_snd_status, freshSession]
    rw [hprev] at hact
    exact absurd hact (by decide)

theorem c9_witness :
    (∃ s, getCurrentSession
        (startTranscription exBackendReady exInitOkEnv exStartFail 200 ("r3")).1 = some s ∧
      s.id = generateSessionId 200 ("r3") ∧ s.startTime = 200 ∧
      s.status = "active" ∧ s.endTime = none) ∧
    ∀ prev, prev.status = "ended" →
      getCurrentSession
        (startTranscription exBackendReady exInitOkEnv exStartFail 200 ("r3")).1 ≠
        some prev :=
  c9_session_replaced exBackendReady exInitOkEnv exStartFail 200 ("r3")
    ("backend start failed") rfl rfl rfl rfl

/-- C10: every successful backend-mode `startTranscription` registers
one more forwarding listener on the backend transcription manager,
`stopTranscription` never removes any, so after n start/stop rounds the
backend holds n more forwarding listeners and a raw backend
`transcription` event is re-emitted once per listener — n more times
than before. -/
theorem c10_listener_accumulation (n : Nat) (st : OrchState) (ienv : InitEnv)
    (senv : StartEnv) (now : Nat) (rand : String) (e : TranscriptionEvent)
    (h1 : st.isTranscribing = false) (h2 : st.initialized = true)
    (h3 : st.transcription = true) (h4 : senv.backendStart = none) :
    (startStopN n st ienv senv now rand).backendTransListeners =
      st.backendTransListeners + n ∧
    emitRaw (startStopN n st ienv senv now rand) e =
      List.replicate (st.backendTransListeners + n)
        (SdkEvent.transcriptionEv (forwardListener e)) ∧
    ∀ (st2 : OrchState) (now2 : Nat),
      (stopTranscription st2 now2).1.backendTransListeners =
        st2.backendTransListeners := by
  have h := (startStopN_spec n ienv senv now rand h4 st h1 h2 h3).2.2.2
  refine ⟨h, ?_, fun st2 now2 => stop_listeners st2 now2⟩
  rw [emitRaw, h]

theorem c10_witness :
    (startStopN 2 exBackendReady exInitOkEnv exStartOk 300 ("r4")).backendTransListeners =
      exBackendReady.backendTransListeners + 2 ∧
    emitRaw (startStopN 2 exBackendReady exInitOkEnv exStartOk 300 ("r4"))
        { text := "hi", timestamp := 1, confidence := 1, isFinal := true,
          speaker := none } =
      List.replicate (exBackendReady.backendTransListeners + 2)
        (SdkEvent.transcriptionEv (forwardListener
          { text := "hi", timestamp := 1, confidence := 1, isFinal := true,
            speaker := none })) ∧
    ∀ (st2 : OrchState) (now2 : Nat),
      (stopTranscription st2 now2).1.backendTransListeners =
        st2.backendTransListeners :=
  c10_listener_accumulation 2 exBackendReady exInitOkEnv exStartOk 300 ("r4")
    { text := "hi", timestamp := 1, confidence := 1, isFinal := true, speaker := none }
    rfl rfl rfl rfl

end LucidTalk
